import Mathlib

/-!
Shallow embedding of `src/cpp/include/rapids_triton/memory/buffer.hpp`
(`triton::backend::rapids::Buffer` and the free `copy` function family).

Modelling conventions:
* `std::size_t` (`Buffer::size_type`) values are natural numbers; C++ unsigned
  subtraction, which wraps modulo 2^64, is rendered by `sub64`.
* Raw pointers are modelled by an abstract address (`Nat`); the elements
  reachable through a pointer are carried alongside it as a `List Nat`
  (the template parameter `T` is instantiated at an abstract scalar type,
  modelled by `Nat`; no claim depends on the element type). Two distinct
  `Buffer` values are modelled as non-aliasing: the C++ sources never write
  through a source buffer's pointer, and the model reflects that by keeping
  each buffer's contents inside the buffer value.
* `cudaStream_t` and `device_id_t` handles are opaque tokens, modelled by `Nat`.
* The build-time constant `IS_GPU_BUILD` (from `build_control.hpp`, fixed at
  configuration time) is passed explicitly as a `gpu : Bool` argument.
* Allocation is modelled by a fresh-address counter `ctr : Nat` threaded
  through the allocating operations: `allocate` returns the address `ctr` and
  the next counter `ctr + 1`, so an address below the current counter can
  never be returned again (this is the only fact about addresses the
  development uses).
* Exceptions (`throw TritonException(...)`) are modelled with `Except` /
  an explicit error field: C++ mutations that happen before a throw are kept,
  exactly as the caller of the C++ function would observe them.
-/

namespace rapids

/-- Modelled from the spec: `MemoryType` with values `HostMemory` and
`DeviceMemory` comes from `rapids_triton/memory/types.hpp`, which is not among
the sources; spec section 4.1 gives `MemoryType ∈ {Host, Device}`, equality
comparison only. -/
inductive MemoryType where
  | HostMemory
  | DeviceMemory
deriving DecidableEq

/-- Modelled from the spec: the error taxonomy of `rapids_triton/exceptions.hpp`
(not among the sources); spec section 7 lists `Unsupported` and `Internal`
(allocation failure, invalid copy geometry, device-runtime failure). -/
inductive ErrorKind where
  | Internal
  | Unsupported
  | OutOfMemory
deriving DecidableEq

/-- Modelled from the spec: a thrown `TritonException` (exceptions.hpp is not
among the sources) carries an error kind and a message string. -/
structure TritonError where
  kind : ErrorKind
  msg : String
deriving DecidableEq

/-- CUDA runtime calls observable during an operation, in program order.
`streamSynchronize s` records `cudaStreamSynchronize(s)`; the argument is the
stream value read at the moment of the call. -/
inductive CudaCall where
  | streamSynchronize (s : Nat)
deriving DecidableEq

/-- C++ unsigned 64-bit subtraction: `a - b` on `std::size_t` operands,
wrapping modulo `2 ^ 64`. Faithful for operand values below `2 ^ 64`. -/
def sub64 (a b : Nat) : Nat :=
  (a + 2 ^ 64 - b) % 2 ^ 64

/-- The `data_ptr` variant of `Buffer` (buffer.hpp lines 37-41):
`std::variant<h_ptr, d_ptr, owned_h_ptr, owned_d_ptr>` with alternatives
0 = borrowed host pointer, 1 = borrowed device pointer, 2 = owned host array,
3 = owned device allocation. Each alternative carries its abstract address and
the element values reachable through it. -/
inductive DataPtr where
  | h_ptr (addr : Nat) (vals : List Nat)
  | d_ptr (addr : Nat) (vals : List Nat)
  | owned_h (addr : Nat) (vals : List Nat)
  | owned_d (addr : Nat) (vals : List Nat)
deriving DecidableEq

/-- The `std::variant::index()` of a `data_ptr` value. -/
def DataPtr.index : DataPtr → Nat
  | .h_ptr _ _ => 0
  | .d_ptr _ _ => 1
  | .owned_h _ _ => 2
  | .owned_d _ _ => 3

/-- The raw pointer extracted from a `data_ptr` (buffer.hpp `get_raw_ptr`,
lines 152-171: every alternative unwraps to the underlying `T*`, modelled by
its abstract address). -/
def DataPtr.addr : DataPtr → Nat
  | .h_ptr a _ => a
  | .d_ptr a _ => a
  | .owned_h a _ => a
  | .owned_d a _ => a

/-- The element values reachable through the pointer (model-level accessor). -/
def DataPtr.vals : DataPtr → List Nat
  | .h_ptr _ v => v
  | .d_ptr _ v => v
  | .owned_h _ v => v
  | .owned_d _ v => v

/-- Replace the values reachable through the pointer, keeping the variant
alternative and address (a write through the raw pointer). -/
def DataPtr.withVals : DataPtr → List Nat → DataPtr
  | .h_ptr a _, v => .h_ptr a v
  | .d_ptr a _, v => .d_ptr a v
  | .owned_h a _, v => .owned_h a v
  | .owned_d a _, v => .owned_d a v

/-- State of a `data_ptr` after `std::move`: the variant keeps its index; a
moved-from `unique_ptr` alternative is null (address 0, nothing reachable),
while raw-pointer alternatives are merely copied. -/
def DataPtr.movedFrom : DataPtr → DataPtr
  | .h_ptr a v => .h_ptr a v
  | .d_ptr a v => .d_ptr a v
  | .owned_h _ _ => .owned_h 0 []
  | .owned_d _ _ => .owned_d 0 []

/-- Modelled from the spec: `detail::copy` (from
`rapids_triton/memory/detail/copy.hpp`, not among the sources; spec section
4.3): an element-wise transfer of `len` elements from `src` at `srcOff` into
`dst` at `dstOff`; a zero-element copy is a no-op; the stream and placement
arguments select the physical path but do not affect the transferred values.
Out-of-range arguments are undefined behaviour in C++ (a caller contract,
spec section 4.4); the model is total and transfers the elements that exist. -/
def detailCopy (dstVals srcVals : List Nat) (dstOff srcOff len : Nat) : List Nat :=
  dstVals.take dstOff ++ (srcVals.drop srcOff).take len ++ dstVals.drop (dstOff + len)

/-- The `Buffer<T>` entity (buffer.hpp lines 33-206, data members lines
146-149): a device id, the `data_ptr` variant, an element count, and the
associated stream. -/
structure Buffer where
  device_ : Nat
  data_ : DataPtr
  size_ : Nat
  stream_ : Nat
deriving DecidableEq

/-- Buffer::mem_type (buffer.hpp lines 102-104): host for even variant index
(alternatives 0 and 2), device for odd (1 and 3). The source line reads
`data_ptr.index() % 2 == 0 ? HostMemory, DeviceMemory`, with `data_ptr` (the
type) for the member `data_` and a comma for the `:` of the conditional; the
intended member and conditional are unambiguous from the identical dispatch in
the static `copy` helper (lines 200-201). -/
def Buffer.mem_type (b : Buffer) : MemoryType :=
  if b.data_.index % 2 = 0 then MemoryType.HostMemory else MemoryType.DeviceMemory

/-- Buffer::size (buffer.hpp lines 109-111). -/
def Buffer.size (b : Buffer) : Nat :=
  b.size_

/-- Buffer::data (buffer.hpp lines 116-118): the raw pointer, via
`get_raw_ptr`. -/
def Buffer.data (b : Buffer) : Nat :=
  b.data_.addr

/-- Buffer::device (buffer.hpp lines 120-122). -/
def Buffer.device (b : Buffer) : Nat :=
  b.device_

/-- Buffer::stream (buffer.hpp lines 127-129). -/
def Buffer.stream (b : Buffer) : Nat :=
  b.stream_

/-- Buffer::set_stream (buffer.hpp lines 138-143): under `IS_GPU_BUILD`,
`cudaStreamSynchronize(stream_)` is called on the old stream value, then
`stream_` is assigned. The returned call list holds the CUDA calls issued,
in order, all of which complete before the assignment takes effect. -/
def Buffer.set_stream (b : Buffer) (new_stream : Nat) (gpu : Bool) :
    Buffer × List CudaCall :=
  ({ b with stream_ := new_stream },
   if gpu then [CudaCall.streamSynchronize b.stream_] else [])

/-- Buffer::allocate (buffer.hpp lines 174-190): for `DeviceMemory` under
`IS_GPU_BUILD`, select the device and return an owned device allocation
(alternative 3); for `DeviceMemory` in a CPU-only build, throw
`Error::Internal`; otherwise return an owned host array (alternative 2,
`std::make_unique<T[]>(size)`, which value-initializes, modelled by zeros;
device contents are indeterminate in C++ and likewise modelled by zeros —
no claim depends on initial contents). `cudaSetDevice` (line 178, which
names the member `device_` from a static function, a slip) does not affect
any state this model tracks. Allocation returns the fresh address `ctr` and
the advanced counter. -/
def Buffer.allocate (size : Nat) (memory_type : MemoryType) (gpu : Bool) (ctr : Nat) :
    Except TritonError (DataPtr × Nat) :=
  if memory_type = MemoryType.DeviceMemory then
    if gpu then
      Except.ok (DataPtr.owned_d ctr (List.replicate size 0), ctr + 1)
    else
      Except.error { kind := ErrorKind.Internal,
                     msg := "DeviceMemory requested in CPU-only build of FIL backend" }
  else
    Except.ok (DataPtr.owned_h ctr (List.replicate size 0), ctr + 1)

/-- Static Buffer::copy (buffer.hpp lines 195-204): `detail::copy` of `len`
elements from the start of `src` to the start of `dst`, with placements read
off the variant indices. -/
def Buffer.copy (dst src : DataPtr) (len : Nat) : DataPtr :=
  dst.withVals (detailCopy dst.vals src.vals 0 0 len)

/-- Owning size constructor (buffer.hpp lines 51-53):
`device_{device}, data_{allocate(size, memory_type)}, size_{size},
stream_{stream}`. -/
def Buffer.ofSize (size : Nat) (memory_type : MemoryType) (device : Nat)
    (stream : Nat) (gpu : Bool) (ctr : Nat) : Except TritonError (Buffer × Nat) := do
  let a ← Buffer.allocate size memory_type gpu ctr
  Except.ok ({ device_ := device, data_ := a.1, size_ := size, stream_ := stream }, a.2)

/-- Non-owning raw-pointer constructor (buffer.hpp lines 61-63):
`data_{input_data}`. The member is initialized directly from the raw `T*`;
the `memory_type` argument is never consulted. As written this
converting-initialization of `std::variant<T*, T*, ...>` is ambiguous between
alternatives 0 (`h_ptr`) and 1 (`d_ptr`), which are the same type; the model
takes alternative 0, and under either resolution the active alternative is
independent of `memory_type`. `vals` are the caller-owned elements behind the
pointer. -/
def Buffer.ofPointer (input_data : Nat) (vals : List Nat) (size : Nat)
    (memory_type : MemoryType) (device : Nat) (stream : Nat) : Buffer :=
  { device_ := device, data_ := DataPtr.h_ptr input_data vals,
    size_ := size, stream_ := stream }

/-- Owning relocation constructor (buffer.hpp lines 71-75): allocate
`other.size_` elements in `memory_type`, copy `other`'s data in, inherit
`other`'s size and stream; the device field is the `device` argument. -/
def Buffer.ofOtherIn (other : Buffer) (memory_type : MemoryType) (device : Nat)
    (gpu : Bool) (ctr : Nat) : Except TritonError (Buffer × Nat) := do
  let a ← Buffer.allocate other.size_ memory_type gpu ctr
  Except.ok ({ device_ := device, data_ := Buffer.copy a.1 other.data_ other.size_,
               size_ := other.size_, stream_ := other.stream_ }, a.2)

/-- Copy constructor (buffer.hpp line 81): delegates to the relocation
constructor at `other`'s own memory type and device. The source line passes a
fourth argument `other.stream()` to the three-parameter target (an excess
argument, a slip); the delegate already takes its stream from `other`
(line 75), so the delegation is modelled with the three declared parameters. -/
def Buffer.ofOther (other : Buffer) (gpu : Bool) (ctr : Nat) :
    Except TritonError (Buffer × Nat) :=
  Buffer.ofOtherIn other other.mem_type other.device_ gpu ctr

/-- Result of the move-with-placement constructor: the new buffer, the state
the moved-from source is left in, and the advanced allocation counter. -/
structure MoveResult where
  buf : Buffer
  other : Buffer
  ctr : Nat
deriving DecidableEq

/-- Move constructor with target placement (buffer.hpp lines 83-92): if
`memory_type` equals `other.mem_type()`, the variant is moved out of `other`
(no allocation, no copy); otherwise fresh storage is allocated in
`memory_type` and `other`'s data is copied in, `other`'s members untouched.
In both branches `size_{other.size_}` and the stream are read from `other`
and never written back (`stream{other.stream_}` on line 92 misspells the
member `stream_`, a slip with unambiguous intent; likewise
`std::move{other.data_}` on line 94 for `std::move(...)`). -/
def Buffer.ofMovedIn (other : Buffer) (memory_type : MemoryType) (gpu : Bool)
    (ctr : Nat) : Except TritonError MoveResult :=
  if memory_type = other.mem_type then
    Except.ok { buf := { device_ := other.device_, data_ := other.data_,
                         size_ := other.size_, stream_ := other.stream_ },
                other := { other with data_ := other.data_.movedFrom },
                ctr := ctr }
  else do
    let a ← Buffer.allocate other.size_ memory_type gpu ctr
    Except.ok { buf := { device_ := other.device_,
                         data_ := Buffer.copy a.1 other.data_ other.size_,
                         size_ := other.size_, stream_ := other.stream_ },
                other := other, ctr := a.2 }

/-- Result of a ranged buffer-to-buffer copy: the error state (`some e` models
a thrown `TritonException e`), the final states of the caller's `dst` and
`src` objects, and the CUDA calls issued. The C++ function never writes any
member of `src` nor through `src`'s pointer; `src` is returned as the caller
retains it. -/
structure CopyResult where
  err : Option TritonError
  dst : Buffer
  src : Buffer
  events : List CudaCall
deriving DecidableEq

/-- Free four-argument ranged copy (buffer.hpp lines 225-241). In source
order: reconcile differing streams by `dst.set_stream(src.stream())` first;
then `len = src_end - src_begin` (unsigned, wrapping); then validate
`len < 0 || src_end > src.size() || len > dst.size() - dst_begin` (unsigned
comparisons and subtraction; `len < 0` can never hold for the unsigned
`size_type`) and throw `Error::Internal` "bad copy between buffers" on
violation; else `detail::copy` of `len` elements from `src.data() + src_begin`
into `dst.data() + dst_begin` on the (reconciled) stream. -/
def copy (dst src : Buffer) (dst_begin src_begin src_end : Nat) (gpu : Bool) :
    CopyResult :=
  let p := if dst.stream_ ≠ src.stream_ then Buffer.set_stream dst src.stream_ gpu
           else (dst, [])
  let dst1 := p.1
  let len := sub64 src_end src_begin
  if len < 0 ∨ src_end > src.size_ ∨ len > sub64 dst1.size_ dst_begin then
    { err := some { kind := ErrorKind.Internal, msg := "bad copy between buffers" },
      dst := dst1, src := src, events := p.2 }
  else
    let written := dst1.data_.withVals
      (detailCopy dst1.data_.vals src.data_.vals dst_begin src_begin len)
    { err := none,
      dst := { dst1 with data_ := written },
      src := src, events := p.2 }

/-- Two-argument overload (buffer.hpp lines 243-246): forwards
`(dst.begin(), src.begin(), src.begin() + src.size())`. `Buffer` has no
`begin()` member (a slip); the begin offset of a buffer is 0, consistent with
`src.begin() + src.size()` denoting the one-past-the-end offset, so `begin()`
is modelled as 0. -/
def copy_dst_src (dst src : Buffer) (gpu : Bool) : CopyResult :=
  copy dst src 0 0 (0 + src.size_) gpu

/-- Three-argument overload with a destination offset (buffer.hpp lines
248-251): forwards `(dst_begin, src.begin(), src.begin() + src.size())`, with
`begin()` modelled as 0 as in `copy_dst_src`. -/
def copy_with_dst_begin (dst src : Buffer) (dst_begin : Nat) (gpu : Bool) :
    CopyResult :=
  copy dst src dst_begin 0 (0 + src.size_) gpu

/-- Four-argument overload taking a source range (buffer.hpp lines 253-257):
the body forwards `(dst_begin, src.begin(), src.begin() + src_end)`. The
identifier `dst_begin` is not a parameter of this overload (the code is
ill-formed as written); it is modelled as 0, the value the sibling overloads
default the destination offset to, and the `src_begin` parameter is unused
exactly as in the source, which forwards `src.begin()` (= 0) in its place. -/
def copy_with_src_range (dst src : Buffer) (src_begin src_end : Nat) (gpu : Bool) :
    CopyResult :=
  copy dst src 0 0 (0 + src_end) gpu

end rapids

namespace rapids

/- Helper lemmas about the model's accessors. -/

theorem DataPtr.vals_withVals (p : DataPtr) (v : List Nat) : (p.withVals v).vals = v := by
  cases p <;> rfl

theorem DataPtr.addr_withVals (p : DataPtr) (v : List Nat) : (p.withVals v).addr = p.addr := by
  cases p <;> rfl

theorem DataPtr.index_withVals (p : DataPtr) (v : List Nat) : (p.withVals v).index = p.index := by
  cases p <;> rfl

theorem sub64_self (e : Nat) : sub64 e e = 0 := by
  simp [sub64, Nat.add_sub_cancel_left]

theorem detailCopy_zero (dv sv : List Nat) (d s : Nat) : detailCopy dv sv d s 0 = dv := by
  simp [detailCopy]

theorem detailCopy_full (v : List Nat) (sz : Nat) (hv : v.length = sz) :
    detailCopy (List.replicate sz 0) v 0 0 sz = v := by
  subst hv
  simp [detailCopy, List.drop_replicate]

end rapids

namespace rapids

/-- C2: the non-owning raw-pointer constructor (buffer.hpp lines 61-63) never
consults its `memory_type` argument — the active variant alternative is the
borrowed host pointer for every input, so `mem_type()` reports `HostMemory`
even when `DeviceMemory` was requested, contradicting the constructor's own
documentation ("in given memory location (either on host or on device)"). -/
theorem ofPointer_ignores_memory_type :
    ∀ (input : Nat) (vals : List Nat) (size : Nat) (mt : MemoryType)
      (device stream : Nat),
      (Buffer.ofPointer input vals size mt device stream).mem_type =
        MemoryType.HostMemory := by
  intro input vals size mt device stream
  rfl

/-- C4: the two- and three-argument copy overloads are the four-argument form
with `dst_begin = 0` and/or the whole source range defaulted, as claimed; the
source-range overload is not equivalent to `copy(dst, src, 0, src_begin,
src_end)`: at dst = [10, 20], src = [7, 8] (equal streams), range [1, 2), the
overload copies from source offset 0 and yields dst contents [7, 8], while the
claimed equivalent yields [8, 20]. -/
theorem copy_overload_equivalence :
    (∀ dst src gpu, copy_dst_src dst src gpu = copy dst src 0 0 src.size_ gpu) ∧
    (∀ dst src dst_begin gpu,
      copy_with_dst_begin dst src dst_begin gpu =
        copy dst src dst_begin 0 src.size_ gpu) ∧
    (copy_with_src_range ⟨0, DataPtr.owned_h 0 [10, 20], 2, 3⟩
        ⟨0, DataPtr.h_ptr 1 [7, 8], 2, 3⟩ 1 2 true).dst.data_.vals = [7, 8] ∧
    (copy ⟨0, DataPtr.owned_h 0 [10, 20], 2, 3⟩
        ⟨0, DataPtr.h_ptr 1 [7, 8], 2, 3⟩ 0 1 2 true).dst.data_.vals = [8, 20] := by
  refine ⟨?_, ?_, by decide, by decide⟩
  · intro dst src gpu
    simp [copy_dst_src, Nat.zero_add]
  · intro dst src dst_begin gpu
    simp [copy_with_dst_begin, Nat.zero_add]

/-- C5 (counterexample): a zero-length range is not always accepted — at
dst of size 1, src of size 1 (equal streams), `src_begin = src_end = 5` the
length is zero yet `src_end > src.size()` makes the ranged copy signal the
Internal error "bad copy between buffers", where the claim promises success. -/
theorem copy_zero_len_counterexample :
    (copy ⟨0, DataPtr.owned_h 0 [5], 1, 0⟩ ⟨0, DataPtr.h_ptr 1 [9], 1, 0⟩
        0 5 5 true).err =
      some { kind := ErrorKind.Internal, msg := "bad copy between buffers" } := by
  decide

/-- C5 (amended): for every pair of buffers, every destination offset and
every zero-length range with `src_begin = src_end ≤ src.size()`, the ranged
copy succeeds — it signals no error — and leaves the contents of both dst and
src unchanged. -/
theorem copy_zero_len_ok (dst src : Buffer) (dst_begin e : Nat) (gpu : Bool)
    (h : e ≤ src.size_) :
    (copy dst src dst_begin e e gpu).err = none ∧
    (copy dst src dst_begin e e gpu).dst.data_.vals = dst.data_.vals ∧
    (copy dst src dst_begin e e gpu).src = src := by
  have hcond : ¬((0 : Nat) < 0 ∨ e > src.size_ ∨ (0 : Nat) > sub64 dst.size_ dst_begin) := by
    push_neg
    exact ⟨Nat.le_refl 0, h, Nat.zero_le _⟩
  by_cases hs : dst.stream_ = src.stream_
  · simp only [copy, hs, ne_eq, not_true_eq_false, if_false, sub64_self,
      if_neg hcond]
    exact ⟨trivial, by rw [DataPtr.vals_withVals, detailCopy_zero], trivial⟩
  · simp only [copy, ne_eq, hs, not_false_iff, if_true, Buffer.set_stream,
      sub64_self, if_neg hcond]
    exact ⟨trivial, by rw [DataPtr.vals_withVals, detailCopy_zero], trivial⟩

/-- C5 witness: the amended zero-length property at concrete buffers. -/
theorem copy_zero_len_ok_witness :
    (copy ⟨0, DataPtr.owned_h 0 [5], 1, 4⟩ ⟨0, DataPtr.h_ptr 1 [9], 1, 6⟩
        0 1 1 true).err = none ∧
    (copy ⟨0, DataPtr.owned_h 0 [5], 1, 4⟩ ⟨0, DataPtr.h_ptr 1 [9], 1, 6⟩
        0 1 1 true).dst.data_.vals =
      (⟨0, DataPtr.owned_h 0 [5], 1, 4⟩ : Buffer).data_.vals ∧
    (copy ⟨0, DataPtr.owned_h 0 [5], 1, 4⟩ ⟨0, DataPtr.h_ptr 1 [9], 1, 6⟩
        0 1 1 true).src = ⟨0, DataPtr.h_ptr 1 [9], 1, 6⟩ :=
  copy_zero_len_ok ⟨0, DataPtr.owned_h 0 [5], 1, 4⟩ ⟨0, DataPtr.h_ptr 1 [9], 1, 6⟩
    0 1 true (by decide)

/-- C9: under a GPU build, `set_stream` issues `cudaStreamSynchronize` on the
buffer's current (old) stream — the synchronize call's argument is the stream
value held before reassignment, and every issued call completes before the
assignment takes effect — and afterwards the buffer reports the new stream
with all other members unchanged. -/
theorem set_stream_sync_order (b : Buffer) (s : Nat) (gpu : Bool)
    (hgpu : gpu = true) :
    (b.set_stream s gpu).2 = [CudaCall.streamSynchronize b.stream_] ∧
    (b.set_stream s gpu).1.stream_ = s ∧
    (b.set_stream s gpu).1 = { b with stream_ := s } := by
  subst hgpu
  exact ⟨rfl, rfl, rfl⟩

/-- C9 witness: `set_stream` at a concrete buffer moving from stream 3 to 8. -/
theorem set_stream_sync_order_witness :
    (Buffer.set_stream ⟨0, DataPtr.h_ptr 2 [1], 1, 3⟩ 8 true).2 =
      [CudaCall.streamSynchronize (⟨0, DataPtr.h_ptr 2 [1], 1, 3⟩ : Buffer).stream_] ∧
    (Buffer.set_stream ⟨0, DataPtr.h_ptr 2 [1], 1, 3⟩ 8 true).1.stream_ = 8 ∧
    (Buffer.set_stream ⟨0, DataPtr.h_ptr 2 [1], 1, 3⟩ 8 true).1 =
      { (⟨0, DataPtr.h_ptr 2 [1], 1, 3⟩ : Buffer) with stream_ := 8 } :=
  set_stream_sync_order ⟨0, DataPtr.h_ptr 2 [1], 1, 3⟩ 8 true rfl

end rapids

namespace rapids

/-- C1 (counterexample): at dst (size 0, stream 1), src (size 0, stream 2),
offsets dst_begin = 1, src_begin = 5, src_end = 0, the claim's condition
`src_end - src_begin < 0` holds as integers, so the claim promises the
Internal error with dst's observable state (including its stream) unchanged;
the code signals no error — on the unsigned `size_type` the length wraps to
2^64 - 5, the dead `len < 0` test cannot fire, and `dst.size() - dst_begin`
wraps to 2^64 - 1, passing the final test — and dst's stream() has already
been changed from 1 to src's stream 2 before validation. -/
theorem copy_range_wrap_counterexample :
    (copy ⟨0, DataPtr.h_ptr 3 [], 0, 1⟩ ⟨0, DataPtr.h_ptr 4 [], 0, 2⟩
        1 5 0 true).err = none ∧
    (copy ⟨0, DataPtr.h_ptr 3 [], 0, 1⟩ ⟨0, DataPtr.h_ptr 4 [], 0, 2⟩
        1 5 0 true).dst.stream_ = 2 := by
  decide

/-- C1 (amended): for every pair of buffers and all offsets, whenever the
(unsigned) validation fails — `src_end > src.size()` or the wrapped length
`src_end - src_begin` exceeds the wrapped capacity `dst.size() - dst_begin` —
the four-argument ranged copy signals the Internal error "bad copy between
buffers" and performs no write to dst: dst's data pointer (variant
alternative, address and every element behind it), size and device are
unchanged; dst's stream is unchanged when it already equalled src's stream,
and has been set to src's stream otherwise (the stream reconciliation
precedes validation). -/
theorem copy_error_no_write (dst src : Buffer) (dst_begin src_begin src_end : Nat)
    (gpu : Bool)
    (h : src_end > src.size_ ∨ sub64 src_end src_begin > sub64 dst.size_ dst_begin) :
    (copy dst src dst_begin src_begin src_end gpu).err =
        some { kind := ErrorKind.Internal, msg := "bad copy between buffers" } ∧
    (copy dst src dst_begin src_begin src_end gpu).dst.data_ = dst.data_ ∧
    (copy dst src dst_begin src_begin src_end gpu).dst.size_ = dst.size_ ∧
    (copy dst src dst_begin src_begin src_end gpu).dst.device_ = dst.device_ ∧
    (copy dst src dst_begin src_begin src_end gpu).dst.stream_ =
      (if dst.stream_ = src.stream_ then dst.stream_ else src.stream_) := by
  have hcond : sub64 src_end src_begin < 0 ∨ src_end > src.size_ ∨
      sub64 src_end src_begin > sub64 dst.size_ dst_begin := by
    rcases h with h | h
    · exact Or.inr (Or.inl h)
    · exact Or.inr (Or.inr h)
  by_cases hs : dst.stream_ = src.stream_
  · simp only [copy, hs, ne_eq, not_true_eq_false, if_false, if_pos hcond]
    exact ⟨trivial, trivial, trivial, trivial, by simp⟩
  · simp only [copy, ne_eq, hs, not_false_iff, if_true, Buffer.set_stream,
      if_pos hcond]
    exact ⟨trivial, trivial, trivial, trivial, by simp [hs]⟩

/-- C1 witness: the amended property at concrete buffers with differing
streams and `src_end` beyond the source's size. -/
theorem copy_error_no_write_witness :
    (copy ⟨0, DataPtr.owned_h 0 [5], 1, 1⟩ ⟨0, DataPtr.h_ptr 1 [9], 1, 2⟩
        0 0 2 true).err =
        some { kind := ErrorKind.Internal, msg := "bad copy between buffers" } ∧
    (copy ⟨0, DataPtr.owned_h 0 [5], 1, 1⟩ ⟨0, DataPtr.h_ptr 1 [9], 1, 2⟩
        0 0 2 true).dst.data_ = (⟨0, DataPtr.owned_h 0 [5], 1, 1⟩ : Buffer).data_ ∧
    (copy ⟨0, DataPtr.owned_h 0 [5], 1, 1⟩ ⟨0, DataPtr.h_ptr 1 [9], 1, 2⟩
        0 0 2 true).dst.size_ = (⟨0, DataPtr.owned_h 0 [5], 1, 1⟩ : Buffer).size_ ∧
    (copy ⟨0, DataPtr.owned_h 0 [5], 1, 1⟩ ⟨0, DataPtr.h_ptr 1 [9], 1, 2⟩
        0 0 2 true).dst.device_ = (⟨0, DataPtr.owned_h 0 [5], 1, 1⟩ : Buffer).device_ ∧
    (copy ⟨0, DataPtr.owned_h 0 [5], 1, 1⟩ ⟨0, DataPtr.h_ptr 1 [9], 1, 2⟩
        0 0 2 true).dst.stream_ =
      (if (⟨0, DataPtr.owned_h 0 [5], 1, 1⟩ : Buffer).stream_ =
          (⟨0, DataPtr.h_ptr 1 [9], 1, 2⟩ : Buffer).stream_ then
        (⟨0, DataPtr.owned_h 0 [5], 1, 1⟩ : Buffer).stream_
      else (⟨0, DataPtr.h_ptr 1 [9], 1, 2⟩ : Buffer).stream_) :=
  copy_error_no_write ⟨0, DataPtr.owned_h 0 [5], 1, 1⟩ ⟨0, DataPtr.h_ptr 1 [9], 1, 2⟩
    0 0 2 true (Or.inl (by decide))

/-- C3 (counterexample): moving a host-resident buffer of size 2 into Device
placement (GPU build) leaves the source buffer with size() = 2, not the
claimed 0 — the constructor reads but never resets the source's members in
the different-placement branch. -/
theorem ofMovedIn_source_counterexample :
    (Buffer.ofMovedIn ⟨0, DataPtr.owned_h 0 [1, 2], 2, 0⟩
        MemoryType.DeviceMemory true 5).map (fun r => r.other.size_) =
      Except.ok 2 := by
  rfl

/-- C3 (amended): move-constructing from b with target placement p equal to
b's placement transfers ownership without a physical copy — the new buffer's
data() pointer equals b's former data() pointer, no allocation happens, and
b is left holding the moved-from variant; with p different from b's
placement, fresh storage is allocated in p and b's contents are copied into
it — the new buffer's active variant is the owned variant of placement p, so
mem_type() reports p — and the source buffer b is left entirely unchanged —
in particular its size() keeps its former value rather than becoming 0. -/
theorem ofMovedIn_spec (other : Buffer) (mt : MemoryType) (gpu : Bool) (ctr : Nat) :
    (mt = other.mem_type →
      Buffer.ofMovedIn other mt gpu ctr =
        Except.ok { buf := { device_ := other.device_, data_ := other.data_,
                             size_ := other.size_, stream_ := other.stream_ },
                    other := { other with data_ := other.data_.movedFrom },
                    ctr := ctr }) ∧
    (mt ≠ other.mem_type → ∀ r, Buffer.ofMovedIn other mt gpu ctr = Except.ok r →
      r.buf.data_.addr = ctr ∧
      r.buf.mem_type = mt ∧
      r.buf.data_.vals = other.data_.vals.take other.size_ ∧
      r.buf.size_ = other.size_ ∧ r.buf.stream_ = other.stream_ ∧
      r.other = other ∧ r.ctr = ctr + 1) := by
  constructor
  · intro hmt
    simp only [Buffer.ofMovedIn, if_pos hmt]
  · intro hmt r hr
    have hall : ∀ (p : DataPtr) (c2 : Nat),
        Buffer.allocate other.size_ mt gpu ctr = Except.ok (p, c2) →
        Buffer.ofMovedIn other mt gpu ctr =
          Except.ok { buf := { device_ := other.device_,
                               data_ := Buffer.copy p other.data_ other.size_,
                               size_ := other.size_, stream_ := other.stream_ },
                      other := other, ctr := c2 } := by
      intro p c2 hp
      rw [Buffer.ofMovedIn, if_neg hmt]
      show Buffer.allocate other.size_ mt gpu ctr >>= _ = _
      rw [hp]
      rfl
    cases mt
    · rw [hall (DataPtr.owned_h ctr (List.replicate other.size_ 0)) (ctr + 1) rfl] at hr
      injection hr with h2
      subst h2
      have h3 : (Buffer.copy (DataPtr.owned_h ctr (List.replicate other.size_ 0))
          other.data_ other.size_).index = 2 := by
        rw [Buffer.copy, DataPtr.index_withVals]
        rfl
      refine ⟨rfl, ?_, ?_, rfl, rfl, rfl, rfl⟩
      · simp [Buffer.mem_type, h3]
      · simp [Buffer.copy, DataPtr.withVals, DataPtr.vals, detailCopy]
    · cases gpu
      · rw [Buffer.ofMovedIn, if_neg hmt] at hr
        simp [Buffer.allocate, bind, Except.bind] at hr
      · rw [hall (DataPtr.owned_d ctr (List.replicate other.size_ 0)) (ctr + 1) rfl] at hr
        injection hr with h2
        subst h2
        have h3 : (Buffer.copy (DataPtr.owned_d ctr (List.replicate other.size_ 0))
            other.data_ other.size_).index = 3 := by
          rw [Buffer.copy, DataPtr.index_withVals]
          rfl
        refine ⟨rfl, ?_, ?_, rfl, rfl, rfl, rfl⟩
        · simp [Buffer.mem_type, h3]
        · simp [Buffer.copy, DataPtr.withVals, DataPtr.vals, detailCopy]

/-- C3 witness: both branches of the amended move property at concrete
buffers — a same-placement move of a borrowed host buffer, and a move of an
owned host buffer of size 2 into Device placement under a GPU build. -/
theorem ofMovedIn_spec_witness :
    (Buffer.ofMovedIn ⟨0, DataPtr.h_ptr 7 [3], 1, 2⟩ MemoryType.HostMemory false 4 =
      Except.ok { buf := ⟨0, DataPtr.h_ptr 7 [3], 1, 2⟩,
                  other := ⟨0, DataPtr.h_ptr 7 [3], 1, 2⟩, ctr := 4 }) ∧
    ((⟨⟨0, DataPtr.owned_d 5 [1, 2], 2, 0⟩, ⟨0, DataPtr.owned_h 0 [1, 2], 2, 0⟩, 6⟩ :
        MoveResult).buf.data_.addr = 5 ∧
      (⟨⟨0, DataPtr.owned_d 5 [1, 2], 2, 0⟩, ⟨0, DataPtr.owned_h 0 [1, 2], 2, 0⟩, 6⟩ :
        MoveResult).buf.mem_type = MemoryType.DeviceMemory ∧
      (⟨⟨0, DataPtr.owned_d 5 [1, 2], 2, 0⟩, ⟨0, DataPtr.owned_h 0 [1, 2], 2, 0⟩, 6⟩ :
        MoveResult).buf.data_.vals =
        (⟨0, DataPtr.owned_h 0 [1, 2], 2, 0⟩ : Buffer).data_.vals.take
          (⟨0, DataPtr.owned_h 0 [1, 2], 2, 0⟩ : Buffer).size_ ∧
      (⟨⟨0, DataPtr.owned_d 5 [1, 2], 2, 0⟩, ⟨0, DataPtr.owned_h 0 [1, 2], 2, 0⟩, 6⟩ :
        MoveResult).buf.size_ = (⟨0, DataPtr.owned_h 0 [1, 2], 2, 0⟩ : Buffer).size_ ∧
      (⟨⟨0, DataPtr.owned_d 5 [1, 2], 2, 0⟩, ⟨0, DataPtr.owned_h 0 [1, 2], 2, 0⟩, 6⟩ :
        MoveResult).buf.stream_ = (⟨0, DataPtr.owned_h 0 [1, 2], 2, 0⟩ : Buffer).stream_ ∧
      (⟨⟨0, DataPtr.owned_d 5 [1, 2], 2, 0⟩, ⟨0, DataPtr.owned_h 0 [1, 2], 2, 0⟩, 6⟩ :
        MoveResult).other = (⟨0, DataPtr.owned_h 0 [1, 2], 2, 0⟩ : Buffer) ∧
      (⟨⟨0, DataPtr.owned_d 5 [1, 2], 2, 0⟩, ⟨0, DataPtr.owned_h 0 [1, 2], 2, 0⟩, 6⟩ :
        MoveResult).ctr = 5 + 1) :=
  ⟨(ofMovedIn_spec ⟨0, DataPtr.h_ptr 7 [3], 1, 2⟩ MemoryType.HostMemory false 4).1 rfl,
   (ofMovedIn_spec ⟨0, DataPtr.owned_h 0 [1, 2], 2, 0⟩ MemoryType.DeviceMemory true 5).2
     (by decide) ⟨⟨0, DataPtr.owned_d 5 [1, 2], 2, 0⟩, ⟨0, DataPtr.owned_h 0 [1, 2], 2, 0⟩, 6⟩
     rfl⟩

end rapids

namespace rapids

/-- C6: requesting Device placement in a CPU-only build fails deterministically
with the Internal error "DeviceMemory requested in CPU-only build of FIL
backend", both for the owning size constructor and for a relocation copy into
Device placement; and in every build, whenever a Device-placement construction
succeeds the resulting buffer reports `mem_type() = DeviceMemory` — host
memory is never silently substituted. -/
theorem device_alloc_strict :
    (∀ size device stream ctr,
      Buffer.ofSize size MemoryType.DeviceMemory device stream false ctr =
        Except.error { kind := ErrorKind.Internal,
                       msg := "DeviceMemory requested in CPU-only build of FIL backend" }) ∧
    (∀ other device ctr,
      Buffer.ofOtherIn other MemoryType.DeviceMemory device false ctr =
        Except.error { kind := ErrorKind.Internal,
                       msg := "DeviceMemory requested in CPU-only build of FIL backend" }) ∧
    (∀ size device stream gpu ctr b ctr2,
      Buffer.ofSize size MemoryType.DeviceMemory device stream gpu ctr =
          Except.ok (b, ctr2) →
        b.mem_type = MemoryType.DeviceMemory) ∧
    (∀ other device gpu ctr b ctr2,
      Buffer.ofOtherIn other MemoryType.DeviceMemory device gpu ctr =
          Except.ok (b, ctr2) →
        b.mem_type = MemoryType.DeviceMemory) := by
  refine ⟨fun size device stream ctr => rfl, fun other device ctr => rfl, ?_, ?_⟩
  · intro size device stream gpu ctr b ctr2 hb
    cases gpu
    · exact absurd hb (by simp [Buffer.ofSize, Buffer.allocate, bind, Except.bind])
    · have hb2 : Except.ok
          (({ device_ := device,
              data_ := DataPtr.owned_d ctr (List.replicate size 0),
              size_ := size, stream_ := stream } : Buffer), ctr + 1) =
          Except.ok (b, ctr2) := hb
      injection hb2 with h2
      rw [← (Prod.mk.injEq _ _ _ _).mp h2 |>.1]
      simp [Buffer.mem_type, DataPtr.index]
  · intro other device gpu ctr b ctr2 hb
    cases gpu
    · exact absurd hb (by simp [Buffer.ofOtherIn, Buffer.allocate, bind, Except.bind])
    · have hb2 : Except.ok
          (({ device_ := device,
              data_ := Buffer.copy (DataPtr.owned_d ctr (List.replicate other.size_ 0))
                other.data_ other.size_,
              size_ := other.size_, stream_ := other.stream_ } : Buffer), ctr + 1) =
          Except.ok (b, ctr2) := hb
      injection hb2 with h2
      rw [← (Prod.mk.injEq _ _ _ _).mp h2 |>.1]
      have h3 : (Buffer.copy (DataPtr.owned_d ctr (List.replicate other.size_ 0))
          other.data_ other.size_).index = 3 := by
        rw [Buffer.copy, DataPtr.index_withVals]
        rfl
      simp [Buffer.mem_type, h3]

/-- C6 witness: a successful Device-placement construction under a GPU build
reports Device memory. -/
theorem device_alloc_strict_witness :
    (⟨0, DataPtr.owned_d 0 [0], 1, 0⟩ : Buffer).mem_type = MemoryType.DeviceMemory :=
  device_alloc_strict.2.2.1 1 0 0 true 0 ⟨0, DataPtr.owned_d 0 [0], 1, 0⟩ 1 rfl

/- Helper lemmas about allocation and the relocation constructor, used to
settle the copy-construction and move-construction claims. -/

theorem allocate_host (size : Nat) (gpu : Bool) (ctr : Nat) :
    Buffer.allocate size MemoryType.HostMemory gpu ctr =
      Except.ok (DataPtr.owned_h ctr (List.replicate size 0), ctr + 1) := rfl

theorem allocate_device (size ctr : Nat) :
    Buffer.allocate size MemoryType.DeviceMemory true ctr =
      Except.ok (DataPtr.owned_d ctr (List.replicate size 0), ctr + 1) := rfl

theorem ofOtherIn_ok (other : Buffer) (mt : MemoryType) (device : Nat) (gpu : Bool)
    (ctr : Nat) (q : DataPtr) (c2 : Nat)
    (hq : Buffer.allocate other.size_ mt gpu ctr = Except.ok (q, c2)) :
    Buffer.ofOtherIn other mt device gpu ctr =
      Except.ok (⟨device, Buffer.copy q other.data_ other.size_,
                  other.size_, other.stream_⟩, c2) := by
  rw [Buffer.ofOtherIn]
  show Buffer.allocate other.size_ mt gpu ctr >>= _ = _
  rw [hq]
  rfl

theorem copy_fresh_vals (q src : DataPtr) (sz : Nat)
    (hq : q.vals = List.replicate sz 0) (hsrc : src.vals.length = sz) :
    (Buffer.copy q src sz).vals = src.vals := by
  rw [Buffer.copy, DataPtr.vals_withVals, hq, ← hsrc]
  simp [detailCopy]

/-- C7: copy-constructing from any buffer b (whose contents back its size, and
whose data pointer was produced by an allocation before the current counter,
in a build able to allocate b's placement) succeeds and yields an owning
buffer with equal size, equal mem_type, element-wise-equal contents and b's
stream, but a data pointer distinct from b's — a deep copy, never an alias. -/
theorem copy_construct_deep (b : Buffer) (gpu : Bool) (ctr : Nat)
    (hwf : b.data_.vals.length = b.size_) (haddr : b.data_.addr < ctr)
    (hgpu : b.mem_type = MemoryType.HostMemory ∨ gpu = true) :
    ∃ r ctr2, Buffer.ofOther b gpu ctr = Except.ok (r, ctr2) ∧
      r.size_ = b.size_ ∧ r.mem_type = b.mem_type ∧
      r.data_.vals = b.data_.vals ∧ r.data_.addr ≠ b.data_.addr ∧
      r.stream_ = b.stream_ ∧
      (r.data_.index = 2 ∨ r.data_.index = 3) := by
  cases hmt : b.mem_type
  case HostMemory =>
    have h3 : (Buffer.copy (DataPtr.owned_h ctr (List.replicate b.size_ 0))
        b.data_ b.size_).index = 2 := by
      rw [Buffer.copy, DataPtr.index_withVals]
      rfl
    have h4 : (Buffer.copy (DataPtr.owned_h ctr (List.replicate b.size_ 0))
        b.data_ b.size_).addr = ctr := by
      rw [Buffer.copy, DataPtr.addr_withVals]
      rfl
    refine ⟨⟨b.device_, Buffer.copy (DataPtr.owned_h ctr (List.replicate b.size_ 0))
        b.data_ b.size_, b.size_, b.stream_⟩, ctr + 1, ?_, rfl, ?_, ?_, ?_, rfl, ?_⟩
    · rw [Buffer.ofOther, hmt]
      exact ofOtherIn_ok b MemoryType.HostMemory b.device_ gpu ctr _ _
        (allocate_host b.size_ gpu ctr)
    · simp [Buffer.mem_type, h3]
    · exact copy_fresh_vals (DataPtr.owned_h ctr (List.replicate b.size_ 0))
        b.data_ b.size_ rfl hwf
    · simpa [h4] using (Nat.ne_of_lt haddr).symm
    · exact Or.inl h3
  case DeviceMemory =>
    have hg : gpu = true := by
      rcases hgpu with hg | hg
      · rw [hmt] at hg
        exact absurd hg (by decide)
      · exact hg
    subst hg
    have h3 : (Buffer.copy (DataPtr.owned_d ctr (List.replicate b.size_ 0))
        b.data_ b.size_).index = 3 := by
      rw [Buffer.copy, DataPtr.index_withVals]
      rfl
    have h4 : (Buffer.copy (DataPtr.owned_d ctr (List.replicate b.size_ 0))
        b.data_ b.size_).addr = ctr := by
      rw [Buffer.copy, DataPtr.addr_withVals]
      rfl
    refine ⟨⟨b.device_, Buffer.copy (DataPtr.owned_d ctr (List.replicate b.size_ 0))
        b.data_ b.size_, b.size_, b.stream_⟩, ctr + 1, ?_, rfl, ?_, ?_, ?_, rfl, ?_⟩
    · rw [Buffer.ofOther, hmt]
      exact ofOtherIn_ok b MemoryType.DeviceMemory b.device_ true ctr _ _
        (allocate_device b.size_ ctr)
    · simp [Buffer.mem_type, h3]
    · exact copy_fresh_vals (DataPtr.owned_d ctr (List.replicate b.size_ 0))
        b.data_ b.size_ rfl hwf
    · simpa [h4] using (Nat.ne_of_lt haddr).symm
    · exact Or.inr h3

/-- C7 witness: copy-constructing a concrete borrowed host buffer of contents
[4, 5] under a CPU-only build. -/
theorem copy_construct_deep_witness :
    ∃ r ctr2,
      Buffer.ofOther ⟨0, DataPtr.h_ptr 0 [4, 5], 2, 9⟩ false 1 = Except.ok (r, ctr2) ∧
      r.size_ = (⟨0, DataPtr.h_ptr 0 [4, 5], 2, 9⟩ : Buffer).size_ ∧
      r.mem_type = (⟨0, DataPtr.h_ptr 0 [4, 5], 2, 9⟩ : Buffer).mem_type ∧
      r.data_.vals = (⟨0, DataPtr.h_ptr 0 [4, 5], 2, 9⟩ : Buffer).data_.vals ∧
      r.data_.addr ≠ (⟨0, DataPtr.h_ptr 0 [4, 5], 2, 9⟩ : Buffer).data_.addr ∧
      r.stream_ = (⟨0, DataPtr.h_ptr 0 [4, 5], 2, 9⟩ : Buffer).stream_ ∧
      (r.data_.index = 2 ∨ r.data_.index = 3) :=
  copy_construct_deep ⟨0, DataPtr.h_ptr 0 [4, 5], 2, 9⟩ false 1 (by decide) (by decide)
    (Or.inl (by decide))

/-- C8: for every size, placement, device and stream (in a build able to
honour the placement), the owning size constructor succeeds and the new buffer
reports size() equal to the requested size and mem_type() equal to the
requested placement. -/
theorem ofSize_reports_request (size : Nat) (mt : MemoryType) (device stream : Nat)
    (gpu : Bool) (ctr : Nat) (h : mt = MemoryType.HostMemory ∨ gpu = true) :
    ∃ b ctr2, Buffer.ofSize size mt device stream gpu ctr = Except.ok (b, ctr2) ∧
      b.size_ = size ∧ b.mem_type = mt := by
  rcases h with h | h
  · subst h
    refine ⟨_, _, rfl, rfl, ?_⟩
    simp [Buffer.mem_type, DataPtr.index]
  · subst h
    cases mt
    · refine ⟨_, _, rfl, rfl, ?_⟩
      simp [Buffer.mem_type, DataPtr.index]
    · refine ⟨_, _, rfl, rfl, ?_⟩
      simp [Buffer.mem_type, DataPtr.index]

/-- C8 witness: a concrete Device-placement construction of size 3 under a
GPU build. -/
theorem ofSize_reports_request_witness :
    ∃ b ctr2,
      Buffer.ofSize 3 MemoryType.DeviceMemory 1 4 true 0 = Except.ok (b, ctr2) ∧
      b.size_ = 3 ∧ b.mem_type = MemoryType.DeviceMemory :=
  ofSize_reports_request 3 MemoryType.DeviceMemory 1 4 true 0 (Or.inr rfl)

/-- C10: the four-argument ranged copy never mutates the source buffer — the
caller's src is exactly as before the call, in every field and every element —
and of the destination's non-content fields (size, device, variant
alternative, data pointer, placement) none changes except the stream, which
is unchanged when dst and src already shared a stream and is set to src's
stream when they differed at entry. -/
theorem copy_frame (dst src : Buffer) (dst_begin src_begin src_end : Nat)
    (gpu : Bool) :
    (copy dst src dst_begin src_begin src_end gpu).src = src ∧
    (copy dst src dst_begin src_begin src_end gpu).dst.size_ = dst.size_ ∧
    (copy dst src dst_begin src_begin src_end gpu).dst.device_ = dst.device_ ∧
    (copy dst src dst_begin src_begin src_end gpu).dst.data_.index = dst.data_.index ∧
    (copy dst src dst_begin src_begin src_end gpu).dst.data_.addr = dst.data_.addr ∧
    (copy dst src dst_begin src_begin src_end gpu).dst.mem_type = dst.mem_type ∧
    (dst.stream_ = src.stream_ →
      (copy dst src dst_begin src_begin src_end gpu).dst.stream_ = dst.stream_) ∧
    (dst.stream_ ≠ src.stream_ →
      (copy dst src dst_begin src_begin src_end gpu).dst.stream_ = src.stream_) := by
  refine ⟨?_, ?_, ?_, ?_, ?_, ?_, fun hx => ?_, fun hx => ?_⟩
  · by_cases hs : dst.stream_ ≠ src.stream_
    · simp only [copy, if_pos hs, Buffer.set_stream]
      split <;> simp [Buffer.mem_type, DataPtr.index_withVals, DataPtr.addr_withVals]
    · simp only [copy, if_neg hs]
      split <;> simp [Buffer.mem_type, DataPtr.index_withVals, DataPtr.addr_withVals]
  · by_cases hs : dst.stream_ ≠ src.stream_
    · simp only [copy, if_pos hs, Buffer.set_stream]
      split <;> simp [Buffer.mem_type, DataPtr.index_withVals, DataPtr.addr_withVals]
    · simp only [copy, if_neg hs]
      split <;> simp [Buffer.mem_type, DataPtr.index_withVals, DataPtr.addr_withVals]
  · by_cases hs : dst.stream_ ≠ src.stream_
    · simp only [copy, if_pos hs, Buffer.set_stream]
      split <;> simp [Buffer.mem_type, DataPtr.index_withVals, DataPtr.addr_withVals]
    · simp only [copy, if_neg hs]
      split <;> simp [Buffer.mem_type, DataPtr.index_withVals, DataPtr.addr_withVals]
  · by_cases hs : dst.stream_ ≠ src.stream_
    · simp only [copy, if_pos hs, Buffer.set_stream]
      split <;> simp [Buffer.mem_type, DataPtr.index_withVals, DataPtr.addr_withVals]
    · simp only [copy, if_neg hs]
      split <;> simp [Buffer.mem_type, DataPtr.index_withVals, DataPtr.addr_withVals]
  · by_cases hs : dst.stream_ ≠ src.stream_
    · simp only [copy, if_pos hs, Buffer.set_stream]
      split <;> simp [Buffer.mem_type, DataPtr.index_withVals, DataPtr.addr_withVals]
    · simp only [copy, if_neg hs]
      split <;> simp [Buffer.mem_type, DataPtr.index_withVals, DataPtr.addr_withVals]
  · by_cases hs : dst.stream_ ≠ src.stream_
    · simp only [copy, if_pos hs, Buffer.set_stream]
      split <;> simp [Buffer.mem_type, DataPtr.index_withVals, DataPtr.addr_withVals]
    · simp only [copy, if_neg hs]
      split <;> simp [Buffer.mem_type, DataPtr.index_withVals, DataPtr.addr_withVals]
  · have hne : ¬(dst.stream_ ≠ src.stream_) := not_not_intro hx
    simp only [copy, if_neg hne]
    split <;> rfl
  · simp only [copy, if_pos hx, Buffer.set_stream]
    split <;> rfl

/-- C10 witness: the frame property at concrete buffers, exercising both the
equal-stream and differing-stream cases. -/
theorem copy_frame_witness :
    (copy ⟨0, DataPtr.owned_h 0 [5, 6], 2, 4⟩ ⟨1, DataPtr.h_ptr 1 [9], 1, 4⟩
        0 0 1 true).src = ⟨1, DataPtr.h_ptr 1 [9], 1, 4⟩ ∧
    (copy ⟨0, DataPtr.owned_h 0 [5, 6], 2, 4⟩ ⟨1, DataPtr.h_ptr 1 [9], 1, 4⟩
        0 0 1 true).dst.stream_ = (⟨0, DataPtr.owned_h 0 [5, 6], 2, 4⟩ : Buffer).stream_ ∧
    (copy ⟨0, DataPtr.owned_h 0 [5, 6], 2, 7⟩ ⟨1, DataPtr.h_ptr 1 [9], 1, 4⟩
        0 0 1 true).dst.stream_ = (⟨1, DataPtr.h_ptr 1 [9], 1, 4⟩ : Buffer).stream_ :=
  ⟨(copy_frame ⟨0, DataPtr.owned_h 0 [5, 6], 2, 4⟩ ⟨1, DataPtr.h_ptr 1 [9], 1, 4⟩
      0 0 1 true).1,
   (copy_frame ⟨0, DataPtr.owned_h 0 [5, 6], 2, 4⟩ ⟨1, DataPtr.h_ptr 1 [9], 1, 4⟩
      0 0 1 true).2.2.2.2.2.2.1 rfl,
   (copy_frame ⟨0, DataPtr.owned_h 0 [5, 6], 2, 7⟩ ⟨1, DataPtr.h_ptr 1 [9], 1, 4⟩
      0 0 1 true).2.2.2.2.2.2.2 (by decide)⟩

end rapids
